import Mathlib

/-!
Verification of the Position & Risk Engine of the stock-risk-calculator
repository.  The engine functions are embedded over ℚ (the Python floats
carry exact decimal inputs here and every operation used is field
arithmetic, floor and rounding).  Python `int(np.floor(x))` and `x // y`
are embedded as `Int.floor`; Python `round(x, n)` (banker's rounding) as
`pyRound`; Python `None` as `Option.none`; Python truthiness of an
optional float (`not x` is true for `None` and for `0.0`) is modelled by
matching on the option and testing equality with 0.
-/

namespace StockRisk

/-- Python builtin rounding of a rational to the nearest integer, ties to
the even neighbour (banker's rounding), as `round` does. -/
def pyRoundInt (q : ℚ) : ℤ :=
  let f := ⌊q⌋
  let r := q - f
  if r < 1/2 then f
  else if 1/2 < r then f + 1
  else if f % 2 = 0 then f else f + 1

/-- Python `round(q, n)`: round to `n` decimal places, ties to even. -/
def pyRound (q : ℚ) (n : ℕ) : ℚ := (pyRoundInt (q * 10 ^ n) : ℚ) / 10 ^ n

/-- `calc_shares_from_investment(total_investment, current_price)` from the
integrated app (src/unnamed/part_000 lines 29-32): `0` when
`current_price <= 0`, else `int(total_investment // current_price)`,
i.e. the floor of the quotient. -/
def calc_shares_from_investment (total_investment current_price : ℚ) : ℤ :=
  if current_price ≤ 0 then 0
  else ⌊total_investment / current_price⌋

/-- `calc_shares_by_risk(max_risk, entry_price, stop_loss)` from the
integrated app (src/unnamed/part_000 lines 35-40): computes
`risk_per_share = entry_price - stop_loss`; returns `(0, risk_per_share)`
when it is non-positive, else `(int(np.floor(max_risk / risk_per_share)),
risk_per_share)`. -/
def calc_shares_by_risk (max_risk entry_price stop_loss : ℚ) : ℤ × ℚ :=
  let risk_per_share := entry_price - stop_loss
  if risk_per_share ≤ 0 then (0, risk_per_share)
  else (⌊max_risk / risk_per_share⌋, risk_per_share)

/-- The dictionary returned by `calc_metrics` (src/unnamed/part_000 lines
43-66).  The key `reward_risk_ratio` of the Python dictionary is the field
`reward_over_risk` here; it is `none` when the guard
`adj_risk_per_share > 0` fails. -/
structure TradeMetricsResult where
  risk_per_share : ℚ
  adj_risk_per_share : ℚ
  profit_per_share : ℚ
  adj_profit_per_share : ℚ
  total_risk : ℚ
  total_profit : ℚ
  reward_over_risk : Option ℚ
deriving DecidableEq, Repr

/-- `calc_metrics(entry_price, stop_loss, target_price, shares, commission,
slippage)` from the integrated app (src/unnamed/part_000 lines 43-66).
`shares` is the integer produced by one of the share-count functions; the
ratio is `round(adj_profit_per_share / adj_risk_per_share, 3)` and is
computed only when `adj_risk_per_share > 0`. -/
def calc_metrics (entry_price stop_loss target_price : ℚ) (shares : ℤ)
    (commission slippage : ℚ) : TradeMetricsResult :=
  let risk_per_share := entry_price - stop_loss
  let profit_per_share := target_price - entry_price
  let adj_risk_per_share := risk_per_share + commission + slippage
  let adj_profit_per_share := profit_per_share - commission - slippage
  let total_risk := adj_risk_per_share * (shares : ℚ)
  let total_profit := adj_profit_per_share * (shares : ℚ)
  let ratio : Option ℚ :=
    if 0 < adj_risk_per_share then some (pyRound (adj_profit_per_share / adj_risk_per_share) 3)
    else none
  { risk_per_share := risk_per_share
    adj_risk_per_share := adj_risk_per_share
    profit_per_share := profit_per_share
    adj_profit_per_share := adj_profit_per_share
    total_risk := total_risk
    total_profit := total_profit
    reward_over_risk := ratio }

/-- `compute_reward_risk(profit_per_share, risk_per_share)` from
src/stock_risk_calculator_streamlit.py lines 32-35: `None` when either
argument is `None` or when `risk_per_share == 0`, else
`round(profit_per_share / risk_per_share, 2)`. -/
def compute_reward_risk (profit_per_share risk_per_share : Option ℚ) : Option ℚ :=
  match profit_per_share, risk_per_share with
  | some p, some r => if r = 0 then none else some (pyRound (p / r) 2)
  | _, _ => none

/-- `safe_shares_from_investment(total_investment, entry_price)` from
src/stock_risk_calculator_streamlit.py lines 37-40: `None` when
`not total_investment or not entry_price or entry_price <= 0`, else
`int(np.floor(total_investment / entry_price))`. -/
def safe_shares_from_investment (total_investment entry_price : Option ℚ) : Option ℤ :=
  match total_investment, entry_price with
  | some ti, some ep =>
      if ti = 0 ∨ ep = 0 ∨ ep ≤ 0 then none
      else some ⌊ti / ep⌋
  | _, _ => none

/-- `safe_shares_by_risk(max_risk, entry_price, stop_loss)` from
src/stock_risk_calculator_streamlit.py lines 42-49: `(None, None)` when
`not max_risk or not entry_price or not stop_loss`; otherwise the same
computation as `calc_shares_by_risk`, with both components wrapped. -/
def safe_shares_by_risk (max_risk entry_price stop_loss : Option ℚ) :
    Option ℤ × Option ℚ :=
  match max_risk, entry_price, stop_loss with
  | some mr, some ep, some sl =>
      if mr = 0 ∨ ep = 0 ∨ sl = 0 then (none, none)
      else
        let risk_per_share := ep - sl
        if risk_per_share ≤ 0 then (some 0, some risk_per_share)
        else (some ⌊mr / risk_per_share⌋, some risk_per_share)
  | _, _, _ => (none, none)

/-- The max-portfolio-percent cap of tab 1 (src/unnamed/part_000 lines
127-134): when `max_position_pct > 0`, `cap_amount =
(max_position_pct/100.0) * total_investment` and `allowed_shares =
int(np.floor(cap_amount / current_price))`; `shares` is replaced by
`allowed_shares` only when `shares > allowed_shares`. -/
def clamp_to_max_position_pct (shares : ℤ)
    (max_position_pct total_investment current_price : ℚ) : ℤ :=
  if 0 < max_position_pct then
    let cap_amount := max_position_pct / 100 * total_investment
    let allowed_shares := ⌊cap_amount / current_price⌋
    if allowed_shares < shares then allowed_shares else shares
  else shares

/-- The affordable-shares clamp of tab 2 (src/unnamed/part_000 lines
268-273): `affordable_shares = int(np.floor(capital2 / entry_price2))` and
`shares_by_risk = min(shares_by_risk, affordable_shares)`. -/
def adjust_to_affordable (shares_by_risk : ℤ) (capital entry_price : ℚ) : ℤ :=
  min shares_by_risk ⌊capital / entry_price⌋

/-- The share count of the dark-mode variant's investment tab
(src/unnamed/part_000 line 449): inside the guard `entry_price > 0 and
stop_loss > 0 and investment > 0`, `shares = investment / entry_price` —
a raw quotient, never floored. -/
def shares_v2 (investment entry_price : ℚ) : ℚ := investment / entry_price

/-- The share count of the dark-mode variant's risk tab (src/unnamed/
part_000 lines 517-518): inside the guard `risk_per_share > 0`,
`shares_allowed = max_risk / risk_per_share` — a raw quotient, never
floored. -/
def shares_allowed_v2 (max_risk risk_per_share : ℚ) : ℚ := max_risk / risk_per_share

/-- The input fields of the summary dictionary that tab 1 of the
integrated app saves to session state (src/unnamed/part_000 lines
137-150), together with the computed outputs.  String and date fields are
omitted: they do not feed any computation. -/
structure Tab1Summary where
  investment : ℚ
  current_price : ℚ
  stop_loss : ℚ
  target_price : ℚ
  shares : ℤ
  commission : ℚ
  slippage : ℚ
  total_risk : ℚ
  total_profit : ℚ
  reward_over_risk : Option ℚ
deriving DecidableEq

/-- The tab-1 pipeline of the integrated app (src/unnamed/part_000 lines
106-109): share count from investment, then `calc_metrics` on that share
count. -/
def tab1_calc (total_investment current_price stop_loss target_price
    commission slippage : ℚ) : ℤ × TradeMetricsResult :=
  let shares := calc_shares_from_investment total_investment current_price
  (shares, calc_metrics current_price stop_loss target_price shares commission slippage)

/-- The summary dictionary tab 1 builds from its inputs and the computed
metrics (src/unnamed/part_000 lines 137-150). -/
def tab1_summary (total_investment current_price stop_loss target_price
    commission slippage : ℚ) : Tab1Summary :=
  let r := tab1_calc total_investment current_price stop_loss target_price commission slippage
  { investment := total_investment
    current_price := current_price
    stop_loss := stop_loss
    target_price := target_price
    shares := r.1
    commission := commission
    slippage := slippage
    total_risk := r.2.total_risk
    total_profit := r.2.total_profit
    reward_over_risk := r.2.reward_over_risk }

/-- Re-running the tab-1 pipeline from the seed values stored in a saved
summary, as the session-state prefill does. -/
def tab1_recompute (s : Tab1Summary) : ℤ × TradeMetricsResult :=
  tab1_calc s.investment s.current_price s.stop_loss s.target_price s.commission s.slippage

/-- C1: for every `max_risk ≥ 0`, `entry_price` and `stop_loss` (Long
direction), `calc_shares_by_risk` returns `(0, risk_per_share)` when
`risk_per_share = entry_price - stop_loss ≤ 0`, and otherwise returns
`(⌊max_risk / risk_per_share⌋, risk_per_share)`; with entry 150, stop 140
and max risk 5000 it returns risk per share 10 and 500 shares. -/
theorem calc_shares_by_risk_spec (max_risk entry_price stop_loss : ℚ)
    (hmr : 0 ≤ max_risk) :
    (entry_price - stop_loss ≤ 0 →
      calc_shares_by_risk max_risk entry_price stop_loss =
        (0, entry_price - stop_loss)) ∧
    (0 < entry_price - stop_loss →
      calc_shares_by_risk max_risk entry_price stop_loss =
        (⌊max_risk / (entry_price - stop_loss)⌋, entry_price - stop_loss)) ∧
    calc_shares_by_risk 5000 150 140 = (500, 10) := by
  refine ⟨fun h => ?_, fun h => ?_, by norm_num [calc_shares_by_risk]⟩
  · simp [calc_shares_by_risk, h]
  · simp [calc_shares_by_risk, not_le.mpr h]

/-- Witness for C1 at max risk 5000, entry 150, stop 140. -/
theorem calc_shares_by_risk_spec_witness :
    (0 : ℚ) ≤ 5000 ∧
    (((150 : ℚ) - 140 ≤ 0 →
      calc_shares_by_risk 5000 150 140 = (0, (150 : ℚ) - 140)) ∧
    (0 < (150 : ℚ) - 140 →
      calc_shares_by_risk 5000 150 140 =
        (⌊(5000 : ℚ) / (150 - 140)⌋, (150 : ℚ) - 140)) ∧
    calc_shares_by_risk 5000 150 140 = (500, 10)) :=
  ⟨by norm_num, calc_shares_by_risk_spec 5000 150 140 (by norm_num)⟩

/-- C3: for every `total_investment ≥ 0` and `current_price > 0`,
`calc_shares_from_investment` returns `⌊total_investment / current_price⌋`,
which is non-negative and satisfies `shares * current_price ≤
total_investment`; for every `current_price ≤ 0` it returns 0. -/
theorem calc_shares_from_investment_spec (ti cp : ℚ)
    (hti : 0 ≤ ti) (hcp : 0 < cp) :
    calc_shares_from_investment ti cp = ⌊ti / cp⌋ ∧
    0 ≤ calc_shares_from_investment ti cp ∧
    (calc_shares_from_investment ti cp : ℚ) * cp ≤ ti ∧
    (∀ ti' cp' : ℚ, cp' ≤ 0 → calc_shares_from_investment ti' cp' = 0) := by
  have heq : calc_shares_from_investment ti cp = ⌊ti / cp⌋ := by
    simp [calc_shares_from_investment, not_le.mpr hcp]
  refine ⟨heq, ?_, ?_, fun ti' cp' h => by simp [calc_shares_from_investment, h]⟩
  · rw [heq]
    exact Int.floor_nonneg.mpr (div_nonneg hti hcp.le)
  · rw [heq]
    exact (le_div_iff₀ hcp).mp (Int.floor_le _)

/-- Witness for C3 at total investment 50000, price 150. -/
theorem calc_shares_from_investment_spec_witness :
    (calc_shares_from_investment 50000 150 = ⌊(50000 : ℚ) / 150⌋ ∧
    0 ≤ calc_shares_from_investment 50000 150 ∧
    (calc_shares_from_investment 50000 150 : ℚ) * 150 ≤ 50000 ∧
    (∀ ti' cp' : ℚ, cp' ≤ 0 → calc_shares_from_investment ti' cp' = 0)) :=
  calc_shares_from_investment_spec 50000 150 (by norm_num) (by norm_num)

/-- C4: `calc_metrics` computes `adj_risk_per_share = risk_per_share +
commission + slippage`, `adj_profit_per_share = profit_per_share -
commission - slippage`, `total_risk = adj_risk_per_share * shares` and
`total_profit = adj_profit_per_share * shares`; with entry 150, stop 140,
target 180 and 500 shares the zero-cost case gives total risk 5000, total
profit 15000 and ratio 3, and commission 1 with slippage 0.5 gives
adjusted profit 28.5, adjusted risk 11.5 and ratio 2.478. -/
theorem calc_metrics_spec (e st t : ℚ) (sh : ℤ) (c sl : ℚ)
    (hc : 0 ≤ c) (hsl : 0 ≤ sl) :
    (calc_metrics e st t sh c sl).adj_risk_per_share = (e - st) + c + sl ∧
    (calc_metrics e st t sh c sl).adj_profit_per_share = (t - e) - c - sl ∧
    (calc_metrics e st t sh c sl).total_risk = ((e - st) + c + sl) * (sh : ℚ) ∧
    (calc_metrics e st t sh c sl).total_profit = ((t - e) - c - sl) * (sh : ℚ) ∧
    (calc_metrics 150 140 180 500 0 0).total_risk = 5000 ∧
    (calc_metrics 150 140 180 500 0 0).total_profit = 15000 ∧
    (calc_metrics 150 140 180 500 0 0).reward_over_risk = some 3 ∧
    (calc_metrics 150 140 180 500 1 (1/2)).adj_profit_per_share = 57/2 ∧
    (calc_metrics 150 140 180 500 1 (1/2)).adj_risk_per_share = 23/2 ∧
    (calc_metrics 150 140 180 500 1 (1/2)).reward_over_risk = some (2478/1000) := by
  refine ⟨rfl, rfl, rfl, rfl, ?_, ?_, ?_, ?_, ?_, ?_⟩ <;>
    norm_num [calc_metrics, pyRound, pyRoundInt]

/-- Witness for C4 at commission 1, slippage 0.5, entry 150, stop 140,
target 180, 500 shares. -/
theorem calc_metrics_spec_witness :
    ((calc_metrics 150 140 180 500 1 (1/2)).adj_risk_per_share =
      ((150 : ℚ) - 140) + 1 + 1/2 ∧
    (calc_metrics 150 140 180 500 1 (1/2)).adj_profit_per_share =
      ((180 : ℚ) - 150) - 1 - 1/2 ∧
    (calc_metrics 150 140 180 500 1 (1/2)).total_risk =
      (((150 : ℚ) - 140) + 1 + 1/2) * ((500 : ℤ) : ℚ) ∧
    (calc_metrics 150 140 180 500 1 (1/2)).total_profit =
      (((180 : ℚ) - 150) - 1 - 1/2) * ((500 : ℤ) : ℚ) ∧
    (calc_metrics 150 140 180 500 0 0).total_risk = 5000 ∧
    (calc_metrics 150 140 180 500 0 0).total_profit = 15000 ∧
    (calc_metrics 150 140 180 500 0 0).reward_over_risk = some 3 ∧
    (calc_metrics 150 140 180 500 1 (1/2)).adj_profit_per_share = 57/2 ∧
    (calc_metrics 150 140 180 500 1 (1/2)).adj_risk_per_share = 23/2 ∧
    (calc_metrics 150 140 180 500 1 (1/2)).reward_over_risk = some (2478/1000)) :=
  calc_metrics_spec 150 140 180 500 1 (1/2) (by norm_num) (by norm_num)

/-- C2 counterexample: `compute_reward_risk` produces a ratio while the
risk per share is strictly negative — the ratio −3 is obtained by dividing
profit 30 by risk −10, refuting "defined iff adjusted risk per share > 0,
never by dividing by a negative" for this place a ratio is computed. -/
theorem compute_reward_risk_negative_risk :
    compute_reward_risk (some 30) (some (-10)) = some (-3) ∧
    compute_reward_risk (some 30) (some (-10)) ≠ none ∧
    ¬ (0 : ℚ) < -10 := by
  have h1 : compute_reward_risk (some 30) (some (-10)) = some (-3) := by
    norm_num [compute_reward_risk, pyRound, pyRoundInt]
  exact ⟨h1, by rw [h1]; exact fun hc => Option.noConfusion hc, by norm_num⟩

/-- C2 amended: in `calc_metrics` the ratio is defined iff the adjusted
risk per share is strictly positive; `compute_reward_risk` instead returns
a ratio iff both arguments are present and the risk per share is nonzero —
it never divides by zero, but a negative risk per share does produce a
(negative) ratio. -/
theorem reward_risk_guard_amended (e st t : ℚ) (sh : ℤ) (c sl : ℚ)
    (p r : Option ℚ) :
    ((calc_metrics e st t sh c sl).reward_over_risk ≠ none ↔
      0 < (calc_metrics e st t sh c sl).adj_risk_per_share) ∧
    (compute_reward_risk p r ≠ none ↔
      ∃ pq rq : ℚ, p = some pq ∧ r = some rq ∧ rq ≠ 0) := by
  constructor
  · simp only [calc_metrics]
    by_cases h : 0 < e - st + c + sl <;> simp [h]
  · match p, r with
    | none, _ => simp [compute_reward_risk]
    | some pq, none => simp [compute_reward_risk]
    | some pq, some rq =>
      by_cases h : rq = 0 <;> simp [compute_reward_risk, h]

/-- C5 counterexample: the dark-mode variant leaves share counts
fractional — with investment 50000 and entry price 150 (stop loss 140,
satisfying the surrounding guard) the tab-1 share count is 1000/3, not an
integer and different from the truncated quotient; the risk-tab quotient
5000 / 3 likewise differs from its truncation. -/
theorem shares_v2_not_truncated :
    shares_v2 50000 150 = 1000/3 ∧
    shares_v2 50000 150 ≠ ((⌊shares_v2 50000 150⌋ : ℤ) : ℚ) ∧
    shares_allowed_v2 5000 3 ≠ ((⌊shares_allowed_v2 5000 3⌋ : ℤ) : ℚ) := by
  refine ⟨?_, ?_, ?_⟩ <;> norm_num [shares_v2, shares_allowed_v2]

/-- C5 amended: the integer engine functions do truncate toward zero and
never round up: given non-negative budgets, `calc_shares_from_investment`
and `calc_shares_by_risk` return non-negative integers equal to the floor
of the real-valued quotient (hence bounded by it) whenever the divisor is
positive; the dark-mode variant's share counts (lines 449 and 517-518)
are the raw fractional quotients, left unfloored. -/
theorem shares_truncation_amended (ti cp mr e st : ℚ)
    (hti : 0 ≤ ti) (hmr : 0 ≤ mr) :
    0 ≤ calc_shares_from_investment ti cp ∧
    (0 < cp → calc_shares_from_investment ti cp = ⌊ti / cp⌋ ∧
      ((calc_shares_from_investment ti cp : ℚ) ≤ ti / cp)) ∧
    0 ≤ (calc_shares_by_risk mr e st).1 ∧
    (0 < e - st → (calc_shares_by_risk mr e st).1 = ⌊mr / (e - st)⌋ ∧
      (((calc_shares_by_risk mr e st).1 : ℚ) ≤ mr / (e - st))) := by
  refine ⟨?_, fun h => ?_, ?_, fun h => ?_⟩
  · unfold calc_shares_from_investment
    by_cases h : cp ≤ 0
    · simp [h]
    · simp only [h, if_false]
      exact Int.floor_nonneg.mpr (div_nonneg hti (not_le.mp h).le)
  · have heq : calc_shares_from_investment ti cp = ⌊ti / cp⌋ := by
      simp [calc_shares_from_investment, not_le.mpr h]
    exact ⟨heq, heq ▸ Int.floor_le _⟩
  · unfold calc_shares_by_risk
    by_cases h : e - st ≤ 0
    · simp [h]
    · simp only [h, if_false]
      exact Int.floor_nonneg.mpr (div_nonneg hmr (not_le.mp h).le)
  · have heq : (calc_shares_by_risk mr e st).1 = ⌊mr / (e - st)⌋ := by
      simp [calc_shares_by_risk, not_le.mpr h]
    exact ⟨heq, heq ▸ Int.floor_le _⟩

/-- Witness for the amended C5 at investment 50000, price 150, max risk
5000, entry 150, stop 140. -/
theorem shares_truncation_amended_witness :
    (0 ≤ calc_shares_from_investment 50000 150 ∧
    (0 < (150 : ℚ) → calc_shares_from_investment 50000 150 = ⌊(50000 : ℚ) / 150⌋ ∧
      ((calc_shares_from_investment 50000 150 : ℚ) ≤ 50000 / 150)) ∧
    0 ≤ (calc_shares_by_risk 5000 150 140).1 ∧
    (0 < (150 : ℚ) - 140 → (calc_shares_by_risk 5000 150 140).1 = ⌊(5000 : ℚ) / (150 - 140)⌋ ∧
      (((calc_shares_by_risk 5000 150 140).1 : ℚ) ≤ 5000 / (150 - 140)))) :=
  shares_truncation_amended 50000 150 5000 150 140 (by norm_num) (by norm_num)

/-- C6: both secondary-cap clamps are monotone-decreasing — they never
increase the share count — and each is idempotent: applying the same clamp
a second time with the same cap parameters leaves the count unchanged. -/
theorem position_cap_clamps_spec (shares : ℤ) (pct ti cp cap ep : ℚ)
    (hcp : 0 < cp) (hep : 0 < ep) :
    clamp_to_max_position_pct shares pct ti cp ≤ shares ∧
    clamp_to_max_position_pct (clamp_to_max_position_pct shares pct ti cp) pct ti cp =
      clamp_to_max_position_pct shares pct ti cp ∧
    adjust_to_affordable shares cap ep ≤ shares ∧
    adjust_to_affordable (adjust_to_affordable shares cap ep) cap ep =
      adjust_to_affordable shares cap ep := by
  refine ⟨?_, ?_, min_le_left _ _, ?_⟩
  · unfold clamp_to_max_position_pct
    by_cases h : 0 < pct
    · simp only [h, if_true]
      split
      · exact le_of_lt (by assumption)
      · exact le_refl _
    · simp [h]
  · unfold clamp_to_max_position_pct
    by_cases h : 0 < pct
    · simp only [h, if_true]
      split
      · rw [if_neg (lt_irrefl _)]
      · rfl
    · simp [h]
  · unfold adjust_to_affordable
    rw [min_assoc, min_self]

/-- Witness for C6 at 700 shares, 10 percent cap, investment 50000, price
150, capital 30000, entry 150. -/
theorem position_cap_clamps_spec_witness :
    (clamp_to_max_position_pct 700 10 50000 150 ≤ 700 ∧
    clamp_to_max_position_pct (clamp_to_max_position_pct 700 10 50000 150) 10 50000 150 =
      clamp_to_max_position_pct 700 10 50000 150 ∧
    adjust_to_affordable 700 30000 150 ≤ 700 ∧
    adjust_to_affordable (adjust_to_affordable 700 30000 150) 30000 150 =
      adjust_to_affordable 700 30000 150) :=
  position_cap_clamps_spec 700 10 50000 150 30000 150 (by norm_num) (by norm_num)

/-- C7: with a fixed entry/stop pair of positive risk per share,
`calc_shares_by_risk` is monotone in the max risk, and with a fixed
positive price `calc_shares_from_investment` is monotone in the
investment. -/
theorem shares_monotone_spec (e st mr mr' cp ti ti' : ℚ)
    (hr : 0 < e - st) (hmr : mr ≤ mr') (hcp : 0 < cp) (hti : ti ≤ ti') :
    (calc_shares_by_risk mr e st).1 ≤ (calc_shares_by_risk mr' e st).1 ∧
    calc_shares_from_investment ti cp ≤ calc_shares_from_investment ti' cp := by
  constructor
  · simp only [calc_shares_by_risk, not_le.mpr hr, if_false]
    exact Int.floor_le_floor (by gcongr)
  · simp only [calc_shares_from_investment, not_le.mpr hcp, if_false]
    exact Int.floor_le_floor (by gcongr)

/-- Witness for C7 at entry 150, stop 140, max risks 4000 ≤ 5000, price
150, investments 40000 ≤ 50000. -/
theorem shares_monotone_spec_witness :
    ((calc_shares_by_risk 4000 150 140).1 ≤ (calc_shares_by_risk 5000 150 140).1 ∧
    calc_shares_from_investment 40000 150 ≤ calc_shares_from_investment 50000 150) :=
  shares_monotone_spec 150 140 4000 5000 150 40000 50000
    (by norm_num) (by norm_num) (by norm_num) (by norm_num)

/-- C8: the engine is pure — the summary tab 1 stores keeps every seed
input unchanged, so re-running the tab-1 pipeline (share count plus
`calc_metrics`) from the stored seed values reproduces the identical
share count and the identical metrics result, and two invocations on the
same inputs agree field by field. -/
theorem tab1_round_trip_spec (i c st t cm sl : ℚ) :
    tab1_recompute (tab1_summary i c st t cm sl) = tab1_calc i c st t cm sl ∧
    (tab1_summary i c st t cm sl).investment = i ∧
    (tab1_summary i c st t cm sl).current_price = c ∧
    (tab1_summary i c st t cm sl).stop_loss = st ∧
    (tab1_summary i c st t cm sl).target_price = t ∧
    (tab1_summary i c st t cm sl).commission = cm ∧
    (tab1_summary i c st t cm sl).slippage = sl ∧
    (tab1_recompute (tab1_summary i c st t cm sl)).2.total_risk =
      (tab1_calc i c st t cm sl).2.total_risk ∧
    (tab1_recompute (tab1_summary i c st t cm sl)).2.reward_over_risk =
      (tab1_calc i c st t cm sl).2.reward_over_risk :=
  ⟨rfl, rfl, rfl, rfl, rfl, rfl, rfl, rfl, rfl⟩

/-- C9 counterexample: a negative (hence non-positive) `total_investment`
with a valid entry price makes `safe_shares_from_investment` return the
numeric share count −1, not `None` as the claim demands for every
non-positive input. -/
theorem safe_shares_negative_investment :
    safe_shares_from_investment (some (-100)) (some 150) = some (-1) ∧
    safe_shares_from_investment (some (-100)) (some 150) ≠ none ∧
    (-100 : ℚ) ≤ 0 := by
  have h1 : safe_shares_from_investment (some (-100)) (some 150) = some (-1) := by
    norm_num [safe_shares_from_investment]
  exact ⟨h1, by rw [h1]; exact fun hc => Option.noConfusion hc, by norm_num⟩

/-- C9 amended: `safe_shares_by_risk` returns `(None, None)` whenever any
of max risk, entry price or stop loss is `None` or 0;
`safe_shares_from_investment` returns `None` whenever the total investment
is `None` or 0, or the entry price is `None`, 0 or non-positive (a
negative total investment with a positive entry price instead yields a
negative share count); and the `(0, negative risk per share)` answer of an
invalid stop is distinct from the `(None, None)` awaiting-input answer. -/
theorem safe_none_amended (mr ep sl ti ep2 : Option ℚ)
    (h1 : mr = none ∨ mr = some 0 ∨ ep = none ∨ ep = some 0 ∨
      sl = none ∨ sl = some 0)
    (h2 : ti = none ∨ ti = some 0 ∨ ep2 = none ∨ ep2 = some 0 ∨
      ∃ q : ℚ, ep2 = some q ∧ q ≤ 0) :
    safe_shares_by_risk mr ep sl = (none, none) ∧
    safe_shares_from_investment ti ep2 = none ∧
    safe_shares_by_risk (some 5000) (some 140) (some 150) =
      (some 0, some (-10)) ∧
    safe_shares_by_risk (some 5000) (some 140) (some 150) ≠ (none, none) := by
  have h4 : safe_shares_by_risk (some 5000) (some 140) (some 150) =
      (some 0, some (-10)) := by
    norm_num [safe_shares_by_risk]
  refine ⟨?_, ?_, h4, ?_⟩
  · match mr, ep, sl with
    | none, _, _ => rfl
    | some a, none, _ => rfl
    | some a, some b, none => rfl
    | some a, some b, some c =>
      rcases h1 with h | h | h | h | h | h <;>
        simp_all [safe_shares_by_risk]
  · match ti, ep2 with
    | none, _ => rfl
    | some a, none => rfl
    | some a, some b =>
      rcases h2 with h | h | h | h | ⟨q, hq, hq0⟩ <;>
        simp_all [safe_shares_from_investment]
  · rw [h4]
    intro hc
    exact Option.noConfusion (congrArg Prod.fst hc)

/-- Witness for the amended C9 at max risk `None` for the risk guard, a
nonzero investment 50000 with a missing (`None`) entry price for the
capital guard, plus the concrete invalid-stop pair 140/150. -/
theorem safe_none_amended_witness :
    (safe_shares_by_risk none (some 150) (some 140) = (none, none) ∧
    safe_shares_from_investment (some 50000) none = none ∧
    safe_shares_by_risk (some 5000) (some 140) (some 150) =
      (some 0, some (-10)) ∧
    safe_shares_by_risk (some 5000) (some 140) (some 150) ≠ (none, none)) :=
  safe_none_amended none (some 150) (some 140) (some 50000) none
    (Or.inl rfl) (Or.inr (Or.inr (Or.inl rfl)))

/-- C10: recomputing `calc_metrics` after the portfolio-percent clamp
changes only the share-dependent fields — the per-share fields and the
reward:risk ratio are identical before and after the clamp, since the
prices, commission and slippage are unchanged. -/
theorem clamp_frame_spec (e st t : ℚ) (s : ℤ) (c sl pct ti : ℚ) :
    (calc_metrics e st t (clamp_to_max_position_pct s pct ti e) c sl).risk_per_share =
      (calc_metrics e st t s c sl).risk_per_share ∧
    (calc_metrics e st t (clamp_to_max_position_pct s pct ti e) c sl).adj_risk_per_share =
      (calc_metrics e st t s c sl).adj_risk_per_share ∧
    (calc_metrics e st t (clamp_to_max_position_pct s pct ti e) c sl).profit_per_share =
      (calc_metrics e st t s c sl).profit_per_share ∧
    (calc_metrics e st t (clamp_to_max_position_pct s pct ti e) c sl).adj_profit_per_share =
      (calc_metrics e st t s c sl).adj_profit_per_share ∧
    (calc_metrics e st t (clamp_to_max_position_pct s pct ti e) c sl).reward_over_risk =
      (calc_metrics e st t s c sl).reward_over_risk :=
  ⟨rfl, rfl, rfl, rfl, rfl⟩

end StockRisk
